import Mathlib

/-!
Verification development for the Chat2Carpool ride-sharing matchmaker.

The Python source is shallowly embedded: Python `str` becomes `String`
(normalisation and substring search are re-implemented character-wise to
mirror `str.lower`, `str.strip`, `str.replace` and the `in` operator),
Python `int` becomes `Int`, Python `float` scores become `ℚ` (exact
rationals; the score formulas of the source only involve decimal
constants and small integer ratios), Python dicts with possibly-`None`
values become association lists `List (String × Option JVal)` where an
absent key and a key bound to `None` are distinguished, and the external
LLM calls become explicit oracle parameters (`Option`-valued: `none`
models the exception/unparsable-output path).
-/

namespace Chat2Carpool

/-- Whitespace test matching the characters stripped by Python `str.strip()`
(space, tab, newline, carriage return, vertical tab, form feed). -/
def isPyWhitespace (c : Char) : Bool :=
  c = ' ' || c = '\t' || c = '\n' || c = '\r' || c.val = 11 || c.val = 12

/-- Strip leading and trailing whitespace from a character list, as Python
`str.strip()` does. -/
def stripChars (l : List Char) : List Char :=
  ((l.dropWhile isPyWhitespace).reverse.dropWhile isPyWhitespace).reverse

/-- Auxiliary for `collapseDouble`: scans `c :: l`, replacing each
non-overlapping occurrence of two consecutive spaces by a single space,
left to right, exactly like Python `str.replace("  ", " ")`. -/
def collapseDouble.aux : Char → List Char → List Char
  | c, [] => [c]
  | c, d :: rest =>
    if c = ' ' ∧ d = ' ' then
      match rest with
      | [] => [' ']
      | e :: rest2 => ' ' :: collapseDouble.aux e rest2
    else c :: collapseDouble.aux d rest

/-- Replace every non-overlapping occurrence of `"  "` by `" "`, scanning
left to right (the semantics of Python `str.replace("  ", " ")`). -/
def collapseDouble : List Char → List Char
  | [] => []
  | c :: rest => collapseDouble.aux c rest

/-- Lowercase every character (Python `str.lower()` on ASCII input). -/
def lowerChars (l : List Char) : List Char :=
  l.map Char.toLower

/-- Embedding of `MatchingService.normalize_location`:
`location.lower().strip().replace("  ", " ")`. -/
def normalize_location (location : String) : String :=
  String.mk (collapseDouble (stripChars (lowerChars location.data)))

/-- Python `needle in haystack` substring test on character lists. -/
def containsSub (needle : List Char) : List Char → Bool
  | [] => needle.isEmpty
  | c :: rest => needle.isPrefixOf (c :: rest) || containsSub needle rest

/-- Python `a in b` substring test on strings. -/
def strIn (a b : String) : Bool :=
  containsSub a.data b.data

/-- Python `s.lower().strip()` as used by `check_time_compatibility`. -/
def lowerStrip (s : String) : String :=
  String.mk (stripChars (lowerChars s.data))

/-- Embedding of the `ride_requests` table row (`database.RideRequest`);
timestamp columns are omitted. -/
structure RideRequest where
  id : Nat
  session_id : String
  user_id : String
  pickup_location : String
  drop_location : String
  route : Option (List String)
  date : String
  time : String
  passengers : Int
  additional_info : Option String
  is_active : Bool
  is_matched : Bool
  matched_with : Option Nat
deriving DecidableEq

/-- Embedding of the `ride_offers` table row (`database.RideOffer`);
timestamp columns are omitted. -/
structure RideOffer where
  id : Nat
  session_id : String
  user_id : String
  pickup_location : String
  drop_location : String
  route : Option (List String)
  date : String
  time : String
  available_seats : Int
  seats_filled : Int
  additional_info : Option String
  is_active : Bool
deriving DecidableEq

/-- Embedding of the `matches` table row (`database.Match`); the
timestamp column is omitted. -/
structure MatchRow where
  id : Nat
  request_id : Nat
  offer_id : Nat
  match_type : String
  match_score : ℚ
  status : String
deriving DecidableEq

/-- Embedding of `MatchingService.check_exact_match`. -/
def check_exact_match (request : RideRequest) (offer : RideOffer) : Bool :=
  normalize_location request.pickup_location = normalize_location offer.pickup_location &&
  normalize_location request.drop_location = normalize_location offer.drop_location

/-- Embedding of the `for i, stop in enumerate(offer_route): if pred: idx = i; break`
loops of `check_route_alignment`: index of the first stop satisfying `pred`. -/
def findStop (pred : String → Bool) : List String → Option Nat
  | [] => none
  | s :: rest => if pred s then some 0 else (findStop pred rest).map (· + 1)

/-- The stop test of the route loops of `check_route_alignment`, written
inline in the source: `needle in stop or stop in needle`. -/
def stopMatches (needle stop : String) : Bool :=
  strIn needle stop || strIn stop needle

/-- Embedding of `MatchingService.check_route_alignment`. Returns
`(is_aligned, match_type, score)`. The unreachable `except` branch of the
source (all operations here are total) is not modelled. -/
def check_route_alignment (request : RideRequest) (offer : RideOffer) :
    Bool × String × ℚ :=
  let fallback :=
    if check_exact_match request offer then (true, "exact", (1 : ℚ))
    else (false, "no_match", (0 : ℚ))
  match offer.route with
  | none => fallback
  | some rt =>
    if rt.length < 2 then fallback
    else
      let offer_route := rt.map normalize_location
      let req_pickup_norm := normalize_location request.pickup_location
      let req_drop_norm := normalize_location request.drop_location
      let pickup_index := findStop (stopMatches req_pickup_norm) offer_route
      let drop_index := findStop (stopMatches req_drop_norm) offer_route
      match pickup_index, drop_index with
      | some p, some d =>
        if p < d then
          let route_length : ℚ := (offer_route.length : ℚ) - 1
          let segment_length : ℚ := (d : ℚ) - (p : ℚ)
          let coverage : ℚ := segment_length / route_length
          let score : ℚ := 7/10 + 3/10 * coverage
          if p = 0 ∧ d = offer_route.length - 1 then (true, "exact_route", (1 : ℚ))
          else (true, "partial_route", score)
        else (false, "no_match", (0 : ℚ))
      | _, _ => (false, "no_match", (0 : ℚ))

/-- The ordered period-keyword table of `check_time_compatibility`. -/
def time_periods : List (String × List String) :=
  [("morning", ["morning", "am", "6am", "7am", "8am", "9am", "10am"]),
   ("afternoon", ["afternoon", "12pm", "1pm", "2pm", "3pm", "4pm"]),
   ("evening", ["evening", "5pm", "6pm", "7pm", "8pm", "9pm"])]

/-- Embedding of `MatchingService.check_time_compatibility`. The source
loops over the periods in order and returns `0.8` at the first period whose
keywords hit both strings; since every such return yields the same value,
the loop is rendered as `List.any`. -/
def check_time_compatibility (request_time offer_time : String) : ℚ :=
  let req_time_lower := lowerStrip request_time
  let off_time_lower := lowerStrip offer_time
  if req_time_lower = off_time_lower then 1
  else if time_periods.any (fun pk =>
      pk.2.any (fun kw => strIn kw req_time_lower) &&
      pk.2.any (fun kw => strIn kw off_time_lower)) then 8/10
  else 6/10

/-- Rounding to three decimal places (Python `round(x, 3)`, idealised over
exact rationals; `round` rounds a half up rather than to even, a
distinction the float-valued source leaves unspecified at exact ties). -/
def round3 (x : ℚ) : ℚ :=
  (round (x * 1000) : ℚ) / 1000

/-- Embedding of `MatchingService.calculate_match_score` (the `request`
and `offer` parameters are unused by the source as well). -/
def calculate_match_score (_request : RideRequest) (_offer : RideOffer)
    (location_score time_score : ℚ) : ℚ :=
  round3 (7/10 * location_score + 3/10 * time_score)

/-- One element of the list built by `MatchingService.find_matches`. -/
structure MatchEntry where
  offer_id : Nat
  offer : RideOffer
  match_type : String
  location_score : ℚ
  time_score : ℚ
  overall_score : ℚ
  remaining_seats : Int
deriving DecidableEq

/-- Embedding of the candidate loop of `MatchingService.find_matches`:
date pre-filter, seat pre-filter, route alignment, time score, overall
score, in encounter order (before the final sort). -/
def collectMatches (request : RideRequest) : List RideOffer → List MatchEntry
  | [] => []
  | offer :: rest =>
    if request.date ≠ offer.date then collectMatches request rest
    else
      let remaining_seats := offer.available_seats - offer.seats_filled
      if remaining_seats < request.passengers then collectMatches request rest
      else
        let r := check_route_alignment request offer
        if r.1 = false then collectMatches request rest
        else
          let time_score := check_time_compatibility request.time offer.time
          let overall_score := calculate_match_score request offer r.2.2 time_score
          { offer_id := offer.id, offer := offer, match_type := r.2.1,
            location_score := r.2.2, time_score := time_score,
            overall_score := overall_score, remaining_seats := remaining_seats } ::
            collectMatches request rest

/-- Stable descending insertion: the new element goes in front of the first
element whose score is not larger, so earlier-encountered entries stay in
front of later equal-score entries. -/
def insertDesc (m : MatchEntry) : List MatchEntry → List MatchEntry
  | [] => [m]
  | x :: xs =>
    if x.overall_score ≤ m.overall_score then m :: x :: xs
    else x :: insertDesc m xs

/-- Stable sort by descending `overall_score`, the behaviour of Python
`matches.sort(key=lambda x: x["overall_score"], reverse=True)` (Python
`list.sort` is stable, and `reverse=True` keeps equal elements in their
original order). -/
def sortDesc (l : List MatchEntry) : List MatchEntry :=
  l.foldr insertDesc []

/-- Embedding of `MatchingService.find_matches`. -/
def find_matches (request : RideRequest) (available_offers : List RideOffer) :
    List MatchEntry :=
  sortDesc (collectMatches request available_offers)

/-- The two pre-filters of `find_matches` as a single predicate: same date
string and enough remaining seats. -/
def prefilterOk (request : RideRequest) (offer : RideOffer) : Bool :=
  decide (request.date = offer.date) &&
  decide (request.passengers ≤ offer.available_seats - offer.seats_filled)

/-- Embedding of `DatabaseService.confirm_match`. The three `db.query(...)
.first()` row fetches are modelled as `Option`-valued inputs (`none` = row
absent); on success the function returns the updated match, request and
offer rows, mirroring the in-place mutations the source commits. -/
def confirm_match (matchRow : Option MatchRow) (requestRow : Option RideRequest)
    (offerRow : Option RideOffer) (user_id : String) :
    Except String (MatchRow × RideRequest × RideOffer) :=
  match matchRow with
  | none => .error "Match not found"
  | some m =>
    match requestRow, offerRow with
    | some request, some offer =>
      if request.user_id ≠ user_id ∧ offer.user_id ≠ user_id then
        .error "Unauthorized - this match doesn\x27t belong to you"
      else if m.status = "accepted" then
        .error "Match already confirmed"
      else if offer.available_seats - offer.seats_filled < request.passengers then
        .error "Not enough seats available"
      else
        let new_filled := offer.seats_filled + request.passengers
        .ok ({ m with status := "accepted" },
             { request with is_matched := true, matched_with := some offer.id,
                            is_active := false },
             { offer with seats_filled := new_filled,
                          is_active := if new_filled ≥ offer.available_seats then false
                                       else offer.is_active })
    | _, _ => .error "Request or Offer not found"

/-- Embedding of `DatabaseService.reject_match`: after the same ownership
checks, it only sets the match status to `"rejected"`; the request and
offer rows (seat counts, active flags, matched state) are not touched, so
the function returns only the updated match row. There is no
already-accepted check in the source. -/
def reject_match (matchRow : Option MatchRow) (requestRow : Option RideRequest)
    (offerRow : Option RideOffer) (user_id : String) : Except String MatchRow :=
  match matchRow with
  | none => .error "Match not found"
  | some m =>
    match requestRow, offerRow with
    | some request, some offer =>
      if request.user_id ≠ user_id ∧ offer.user_id ≠ user_id then
        .error "Unauthorized"
      else
        .ok { m with status := "rejected" }
    | _, _ => .error "Request or Offer not found"

/-- A JSON-ish value stored in the `ride_details` dict of a session
(string, integer or list-of-strings, the shapes the extractor produces). -/
inductive JVal where
  | str : String → JVal
  | num : Int → JVal
  | arr : List String → JVal
deriving DecidableEq

/-- A Python dict with string keys and possibly-`None` values, as an
insertion-ordered association list. A key bound to `none` models an
explicit `None`/`null` value, which Python dicts distinguish from an
absent key. -/
abbrev PyDict := List (String × Option JVal)

/-- Python `d[k] = v`: replace in place if the key exists, else append. -/
def dictSet : PyDict → String → Option JVal → PyDict
  | [], k, v => [(k, v)]
  | (k0, v0) :: rest, k, v =>
    if k0 = k then (k0, v) :: rest else (k0, v0) :: dictSet rest k v

/-- Python `k in d` / `d[k]` probe: `some v` when the key is present with
value `v` (possibly `none` = Python `None`), `none` when the key is absent. -/
def dictLookup : PyDict → String → Option (Option JVal)
  | [], _ => none
  | (k0, v0) :: rest, k => if k0 = k then some v0 else dictLookup rest k

/-- Python `{**a, **b}` (equally `a.update(b)`): every key of `b`
overwrites, in order, including keys carrying an explicit `None`. -/
def dictMerge (a b : PyDict) : PyDict :=
  b.foldl (fun acc kv => dictSet acc kv.1 kv.2) a

/-- Python `d.get(k)`: `None` both when the key is absent and when it is
bound to `None`. -/
def pyGet (d : PyDict) (k : String) : Option JVal :=
  match dictLookup d k with
  | some v => v
  | none => none

/-- The required-field list of `extract_information`:
`["pickup_location","drop_location","date","time"]` plus `passengers` for a
ride request, plus `available_seats` for a ride offer. -/
def requiredFields (intent : String) : List String :=
  ["pickup_location", "drop_location", "date", "time"] ++
    (if intent = "ride_request" then ["passengers"]
     else if intent = "ride_offer" then ["available_seats"]
     else [])

/-- The missing-field computation of `extract_information`:
required fields whose merged value is `None` (absent or null). -/
def missingFields (intent : String) (d : PyDict) : List String :=
  (requiredFields intent).filter (fun f => (pyGet d f).isNone)

/-- The passengers default of `extract_information`: a ride request with
`merged_details.get("passengers") is None` gets `passengers = 1`. -/
def applyPassengersDefault (intent : String) (merged : PyDict) : PyDict :=
  if intent = "ride_request" && (pyGet merged "passengers").isNone then
    dictSet merged "passengers" (some (JVal.num 1))
  else merged

/-- The hard-coded fallback question table of
`generate_clarifying_question` (`field_questions` in the source). -/
def field_questions : List (String × String) :=
  [("pickup_location", "Where will you be starting from?"),
   ("drop_location", "Where do you need to go?"),
   ("route", "Would you like to share your route for better matches? (Optional)"),
   ("date", "When do you need this ride? (e.g., today, tomorrow)"),
   ("time", "What time do you need the ride?"),
   ("passengers", "How many passengers will be traveling?"),
   ("available_seats", "How many seats do you have available?")]

/-- The fallback loop of `generate_clarifying_question`: the first missing
field that has a bound question wins; otherwise a generic default. -/
def fallbackClarifyingQuestion (missing_fields : List String) : String :=
  match missing_fields.findSome? (fun f => field_questions.lookup f) with
  | some q => q
  | none => "Could you please provide more details about your ride?"

/-- Embedding of `RideSharingLLMService.generate_clarifying_question`. The
`CLARIFICATION_PROMPT | llm` call is an oracle parameter: `some q` models a
successful LLM response with text `q` (returned verbatim), `none` models
the exception path, which falls back to the deterministic table. -/
def generate_clarifying_question (llmOracle : Option String)
    (missing_fields : List String) : String :=
  match llmOracle with
  | some q => q
  | none => fallbackClarifyingQuestion missing_fields

/-- Embedding of `models.ExtractionResponse` (with `details` kept as the
merged dict the source builds the pydantic model from). -/
structure ExtractionResponse where
  details : PyDict
  missing_fields : List String
  is_complete : Bool
  clarifying_question : Option String
deriving DecidableEq

/-- Embedding of `RideSharingLLMService.extract_information`.
`extractOracle` models the `CONTEXT_AWARE_EXTRACTION_PROMPT | llm` call
plus JSON parsing: `some d` is a successfully parsed `result["details"]`
dict, `none` is the exception path (LLM failure or unparsable output).
`clarifyOracle` is passed through to `generate_clarifying_question`.
`existing` is the session's `ride_details`. The second component of the
result is the session's `ride_details` after the call
(`MemoryManager.update_ride_details` performs `ride_details.update(merged)`;
the error path never calls it). -/
def extract_information (extractOracle : Option PyDict)
    (clarifyOracle : Option String) (intent : String) (existing : PyDict) :
    ExtractionResponse × PyDict :=
  match extractOracle with
  | some newDetails =>
    let merged := dictMerge existing newDetails
    let merged := applyPassengersDefault intent merged
    let stored := dictMerge existing merged
    let missing := missingFields intent merged
    let is_complete := missing.isEmpty
    let clarifying_question :=
      if !is_complete && !missing.isEmpty then
        some (generate_clarifying_question clarifyOracle missing)
      else none
    ({ details := merged, missing_fields := missing, is_complete := is_complete,
       clarifying_question := clarifying_question }, stored)
  | none =>
    let missing := missingFields intent existing
    ({ details := existing, missing_fields := missing, is_complete := false,
       clarifying_question :=
         some "I\x27m having trouble understanding. Could you please provide more details?" },
     existing)

/-- The priority order the specification assigns to clarifying-question
selection; stated from the spec for comparison with the code's
required-field order. -/
def priorityOrder : List String :=
  ["pickup_location", "drop_location", "date", "time", "passengers",
   "available_seats"]

/-- Embedding of `memory_manager.ConversationMessage` (timestamp and
metadata omitted). -/
structure ConversationMessage where
  role : String
  content : String
deriving DecidableEq

/-- Embedding of `memory_manager.ConversationSession` (timestamps
omitted). -/
structure ConversationSession where
  session_id : String
  messages : List ConversationMessage
  ride_details : PyDict
  current_intent : Option String
  is_complete : Bool
deriving DecidableEq

/-- Embedding of `ConversationSession.add_message`: unconditionally
appends; the source never consults `max_messages_per_session` here or
anywhere else. -/
def add_message (s : ConversationSession) (role content : String) :
    ConversationSession :=
  { s with messages := s.messages ++ [{ role := role, content := content }] }

/-- The `max_messages_per_session` value of the global `MemoryManager`
instance (both the constructor default and the value passed at
`memory_manager = MemoryManager(...)`). -/
def max_messages_per_session : Nat := 50

/-- A fresh session as `MemoryManager.get_session` creates it. -/
def newSession (session_id : String) : ConversationSession :=
  { session_id := session_id, messages := [], ride_details := [],
    current_intent := none, is_complete := false }

/-- Apply `n` message appends to a session (repeated `add_message`). -/
def addMessages (s : ConversationSession) : Nat → ConversationSession
  | 0 => s
  | n + 1 => add_message (addMessages s n) "user" "hi"

/-- Concrete ride request used by witnesses: the partial-route scenario of
the specification (pickup `Drigh Road`, drop `Gulshan Chowrangi`). -/
def reqW : RideRequest :=
  { id := 1, session_id := "s1", user_id := "u1",
    pickup_location := "Drigh Road", drop_location := "Gulshan Chowrangi",
    route := none, date := "tomorrow", time := "8am", passengers := 1,
    additional_info := none, is_active := true, is_matched := false,
    matched_with := none }

/-- Concrete ride offer used by witnesses: the five-stop route of the
specification's partial-route scenario. -/
def offW : RideOffer :=
  { id := 2, session_id := "s2", user_id := "u2",
    pickup_location := "FAST", drop_location := "Sohrab Goth",
    route := some ["FAST", "Drigh Road", "Millennium", "Gulshan Chowrangi",
                   "Sohrab Goth"],
    date := "tomorrow", time := "8am", available_seats := 3, seats_filled := 0,
    additional_info := none, is_active := true }

/-- Concrete offer that fails the date pre-filter. -/
def offWrongDate : RideOffer :=
  { offW with id := 3, date := "today" }

/-- Concrete offer that fails the seat pre-filter. -/
def offFull : RideOffer :=
  { offW with id := 4, seats_filled := 3 }

/-- Concrete pending match row between `reqW` and `offW`. -/
def matchW : MatchRow :=
  { id := 10, request_id := 1, offer_id := 2, match_type := "partial_route",
    match_score := 85/100, status := "pending" }

/-- Concrete session `ride_details` dict with every ride-request field
already present and non-null. -/
def detailsFull : PyDict :=
  [("pickup_location", some (JVal.str "DHA")),
   ("drop_location", some (JVal.str "Airport")),
   ("date", some (JVal.str "tomorrow")),
   ("time", some (JVal.str "5pm")),
   ("passengers", some (JVal.num 2))]

/-- Concrete stored details: non-null pickup and date. -/
def detailsEx : PyDict :=
  [("pickup_location", some (JVal.str "DHA")),
   ("date", some (JVal.str "tomorrow"))]

/-- Concrete extracted partial whose only key carries an explicit null. -/
def detailsNullDate : PyDict := [("date", (none : Option JVal))]

/-! Helper lemmas. -/

lemma dictLookup_dictSet (d : PyDict) (k : String) (v : Option JVal) (k2 : String) :
    dictLookup (dictSet d k v) k2 = if k = k2 then some v else dictLookup d k2 := by
  induction d with
  | nil =>
    simp only [dictSet, dictLookup]
  | cons kv rest ih =>
    obtain ⟨k0, v0⟩ := kv
    simp only [dictSet]
    by_cases h0 : k0 = k
    · subst h0
      rw [if_pos rfl]
      simp only [dictLookup]
      split_ifs <;> rfl
    · rw [if_neg h0]
      simp only [dictLookup]
      by_cases h2 : k0 = k2
      · subst h2
        rw [if_pos rfl, if_neg (fun hc => h0 hc.symm), if_pos rfl]
      · rw [if_neg h2, if_neg h2, ih]

lemma dictLookup_not_mem (d : PyDict) (k : String)
    (h : k ∉ d.map Prod.fst) : dictLookup d k = none := by
  induction d with
  | nil => rfl
  | cons kv rest ih =>
    obtain ⟨k0, v0⟩ := kv
    rw [List.map_cons] at h
    have h1 : k0 ≠ k := fun hc => h (hc ▸ List.mem_cons_self k0 _)
    have h2 : k ∉ rest.map Prod.fst := fun hm => h (List.mem_cons_of_mem _ hm)
    rw [dictLookup, if_neg h1, ih h2]

lemma dictLookup_dictMerge (a b : PyDict) (k : String)
    (hnd : (b.map Prod.fst).Nodup) :
    dictLookup (dictMerge a b) k =
      match dictLookup b k with
      | some v => some v
      | none => dictLookup a k := by
  induction b generalizing a with
  | nil => rfl
  | cons kv rest ih =>
    obtain ⟨k0, v0⟩ := kv
    rw [List.map_cons, List.nodup_cons] at hnd
    have hmerge : dictMerge a ((k0, v0) :: rest) = dictMerge (dictSet a k0 v0) rest := rfl
    rw [hmerge, ih _ hnd.2, dictLookup]
    by_cases h0 : k0 = k
    · subst h0
      rw [if_pos rfl, dictLookup_not_mem rest k0 hnd.1, dictLookup_dictSet, if_pos rfl]
    · rw [if_neg h0]
      cases hrest : dictLookup rest k with
      | some v => rfl
      | none => rw [dictLookup_dictSet, if_neg h0]

lemma findStop_eq_findIdx? (pred : String → Bool) (l : List String) :
    findStop pred l = l.findIdx? pred := by
  induction l with
  | nil => rfl
  | cons s rest ih =>
    rw [findStop, List.findIdx?_cons]
    by_cases h : pred s
    · simp [h]
    · simp [h, ih]

lemma insertDesc_perm (m : MatchEntry) (l : List MatchEntry) :
    List.Perm (insertDesc m l) (m :: l) := by
  induction l with
  | nil => rfl
  | cons x xs ih =>
    rw [insertDesc]
    by_cases h : x.overall_score ≤ m.overall_score
    · rw [if_pos h]
    · rw [if_neg h]
      exact (ih.cons x).trans (List.Perm.swap m x xs)

lemma mem_insertDesc {e m : MatchEntry} {l : List MatchEntry} :
    e ∈ insertDesc m l ↔ e = m ∨ e ∈ l := by
  rw [(insertDesc_perm m l).mem_iff, List.mem_cons]

lemma insertDesc_pairwise (m : MatchEntry) (l : List MatchEntry)
    (h : l.Pairwise (fun a b => b.overall_score ≤ a.overall_score)) :
    (insertDesc m l).Pairwise (fun a b => b.overall_score ≤ a.overall_score) := by
  induction l with
  | nil => simp [insertDesc]
  | cons x xs ih =>
    rw [List.pairwise_cons] at h
    rw [insertDesc]
    by_cases hx : x.overall_score ≤ m.overall_score
    · rw [if_pos hx]
      refine List.pairwise_cons.2 ⟨?_, List.pairwise_cons.2 h⟩
      intro b hb
      rcases List.mem_cons.1 hb with hb | hb
      · exact hb ▸ hx
      · exact (h.1 b hb).trans hx
    · rw [if_neg hx]
      refine List.pairwise_cons.2 ⟨?_, ih h.2⟩
      intro b hb
      rcases mem_insertDesc.1 hb with hb | hb
      · exact hb ▸ le_of_lt (lt_of_not_le hx)
      · exact h.1 b hb

lemma filter_insertDesc (s : ℚ) (m : MatchEntry) (l : List MatchEntry) :
    (insertDesc m l).filter (fun e => decide (e.overall_score = s)) =
      if m.overall_score = s then
        m :: l.filter (fun e => decide (e.overall_score = s))
      else l.filter (fun e => decide (e.overall_score = s)) := by
  induction l with
  | nil =>
    by_cases hm : m.overall_score = s <;> simp [insertDesc, List.filter, hm]
  | cons x xs ih =>
    rw [insertDesc]
    by_cases hx : x.overall_score ≤ m.overall_score
    · rw [if_pos hx]
      by_cases hm : m.overall_score = s <;> simp [List.filter, hm]
    · rw [if_neg hx]
      by_cases hm : m.overall_score = s
      · rw [if_pos hm]
        by_cases hxs : x.overall_score = s
        · exact absurd (le_of_eq (hxs.trans hm.symm)) hx
        · simp [List.filter, hxs, hm, ih]
      · rw [if_neg hm]
        by_cases hxs : x.overall_score = s
        · simp [List.filter, hxs, hm, ih]
        · simp [List.filter, hxs, hm, ih]

lemma filter_sortDesc (s : ℚ) (l : List MatchEntry) :
    (sortDesc l).filter (fun e => decide (e.overall_score = s)) =
      l.filter (fun e => decide (e.overall_score = s)) := by
  induction l with
  | nil => rfl
  | cons x xs ih =>
    have : sortDesc (x :: xs) = insertDesc x (sortDesc xs) := rfl
    rw [this, filter_insertDesc]
    by_cases hx : x.overall_score = s
    · simp [List.filter, hx, ih]
    · simp [List.filter, hx, ih]

lemma sortDesc_perm (l : List MatchEntry) : List.Perm (sortDesc l) l := by
  induction l with
  | nil => rfl
  | cons x xs ih =>
    have : sortDesc (x :: xs) = insertDesc x (sortDesc xs) := rfl
    rw [this]
    exact (insertDesc_perm x (sortDesc xs)).trans (ih.cons x)

lemma sortDesc_pairwise (l : List MatchEntry) :
    (sortDesc l).Pairwise (fun a b => b.overall_score ≤ a.overall_score) := by
  induction l with
  | nil => exact List.Pairwise.nil
  | cons x xs ih => exact insertDesc_pairwise x (sortDesc xs) ih

lemma mem_collectMatches {request : RideRequest} {offers : List RideOffer}
    {e : MatchEntry} (he : e ∈ collectMatches request offers) :
    request.date = e.offer.date ∧
    request.passengers ≤ e.offer.available_seats - e.offer.seats_filled ∧
    check_route_alignment request e.offer = (true, e.match_type, e.location_score) ∧
    e.time_score = check_time_compatibility request.time e.offer.time ∧
    e.overall_score = calculate_match_score request e.offer e.location_score e.time_score := by
  induction offers with
  | nil => exact absurd he (List.not_mem_nil e)
  | cons offer rest ih =>
    rw [collectMatches] at he
    by_cases hdate : request.date ≠ offer.date
    · exact ih (by rwa [if_pos hdate] at he)
    · rw [if_neg hdate] at he
      by_cases hseats : offer.available_seats - offer.seats_filled < request.passengers
      · exact ih (by rwa [if_pos hseats] at he)
      · rw [if_neg hseats] at he
        by_cases halign : (check_route_alignment request offer).1 = false
        · exact ih (by rwa [if_pos halign] at he)
        · rw [if_neg halign] at he
          rcases List.mem_cons.1 he with he | he
          · subst he
            refine ⟨not_not.1 hdate, not_lt.1 hseats, ?_, rfl, rfl⟩
            have h1 : (check_route_alignment request offer).1 = true :=
              Bool.not_eq_false _ ▸ halign
            calc check_route_alignment request offer
                = ((check_route_alignment request offer).1,
                   (check_route_alignment request offer).2.1,
                   (check_route_alignment request offer).2.2) := rfl
              _ = (true, (check_route_alignment request offer).2.1,
                   (check_route_alignment request offer).2.2) := by rw [h1]
          · exact ih he

lemma collectMatches_filter (request : RideRequest) (offers : List RideOffer) :
    collectMatches request offers =
      collectMatches request (offers.filter (prefilterOk request)) := by
  induction offers with
  | nil => rfl
  | cons offer rest ih =>
    by_cases hpre : prefilterOk request offer = true
    · have hp := hpre
      rw [prefilterOk, Bool.and_eq_true] at hp
      have h1 : request.date = offer.date := of_decide_eq_true hp.1
      have h2 : request.passengers ≤ offer.available_seats - offer.seats_filled :=
        of_decide_eq_true hp.2
      rw [List.filter_cons_of_pos hpre, collectMatches, collectMatches,
        if_neg (not_not.2 h1), if_neg (not_lt.2 h2), if_neg (not_not.2 h1),
        if_neg (not_lt.2 h2)]
      by_cases halign : (check_route_alignment request offer).1 = false
      · rw [if_pos halign, if_pos halign, ih]
      · rw [if_neg halign, if_neg halign, ih]
    · have hpre' := hpre
      rw [prefilterOk, Bool.and_eq_true, not_and_or] at hpre'
      rw [List.filter_cons_of_neg (by simpa using hpre), collectMatches]
      rcases hpre' with h | h
      · rw [if_pos (fun hc => h (decide_eq_true hc)), ih]
      · have hlt : offer.available_seats - offer.seats_filled < request.passengers := by
          by_contra hc
          exact h (decide_eq_true (not_lt.1 hc))
        by_cases hdate : request.date ≠ offer.date
        · rw [if_pos hdate, ih]
        · rw [if_neg hdate, if_pos hlt, ih]

/-! Claim theorems. -/

/-- C1: `confirm_match` runs its checks in the order match-not-found,
request/offer-not-found, unauthorized (acting user owns neither side),
already-confirmed, insufficient capacity; when all checks pass it marks the
match accepted, marks the request matched with the offer id and inactive,
adds the request's passengers to the offer's filled seats, and deactivates
the offer exactly when the new filled count reaches the available seats. -/
theorem C1_confirm_match_checks_and_effects (mOpt : Option MatchRow)
    (reqOpt : Option RideRequest) (offOpt : Option RideOffer) (u : String) :
    (mOpt = none → confirm_match mOpt reqOpt offOpt u = .error "Match not found") ∧
    (∀ m, mOpt = some m → (reqOpt = none ∨ offOpt = none) →
      confirm_match mOpt reqOpt offOpt u = .error "Request or Offer not found") ∧
    (∀ m r o, mOpt = some m → reqOpt = some r → offOpt = some o →
      (r.user_id ≠ u → o.user_id ≠ u →
        confirm_match mOpt reqOpt offOpt u =
          .error "Unauthorized - this match doesn\x27t belong to you") ∧
      ((r.user_id = u ∨ o.user_id = u) → m.status = "accepted" →
        confirm_match mOpt reqOpt offOpt u = .error "Match already confirmed") ∧
      ((r.user_id = u ∨ o.user_id = u) → m.status ≠ "accepted" →
        o.available_seats - o.seats_filled < r.passengers →
        confirm_match mOpt reqOpt offOpt u = .error "Not enough seats available") ∧
      ((r.user_id = u ∨ o.user_id = u) → m.status ≠ "accepted" →
        r.passengers ≤ o.available_seats - o.seats_filled →
        confirm_match mOpt reqOpt offOpt u = .ok
          ({ m with status := "accepted" },
           { r with is_matched := true, matched_with := some o.id,
                    is_active := false },
           { o with seats_filled := o.seats_filled + r.passengers,
                    is_active :=
                      if o.seats_filled + r.passengers ≥ o.available_seats then false
                      else o.is_active }))) := by
  refine ⟨fun h => by subst h; rfl, ?_, ?_⟩
  · intro m hm hro
    subst hm
    rcases hro with h | h
    · subst h
      rcases offOpt with _ | o <;> rfl
    · subst h
      rcases reqOpt with _ | r <;> rfl
  · intro m r o hm hr ho
    subst hm; subst hr; subst ho
    have heq : confirm_match (some m) (some r) (some o) u =
        if r.user_id ≠ u ∧ o.user_id ≠ u then
          Except.error "Unauthorized - this match doesn\x27t belong to you"
        else if m.status = "accepted" then Except.error "Match already confirmed"
        else if o.available_seats - o.seats_filled < r.passengers then
          Except.error "Not enough seats available"
        else Except.ok
          ({ m with status := "accepted" },
           { r with is_matched := true, matched_with := some o.id, is_active := false },
           { o with seats_filled := o.seats_filled + r.passengers,
                    is_active :=
                      if o.seats_filled + r.passengers ≥ o.available_seats then false
                      else o.is_active }) := rfl
    refine ⟨?_, ?_, ?_, ?_⟩
    · intro h1 h2
      rw [heq, if_pos ⟨h1, h2⟩]
    · intro hown hacc
      have hcond : ¬(r.user_id ≠ u ∧ o.user_id ≠ u) := by
        rcases hown with h | h
        · exact fun hc => hc.1 h
        · exact fun hc => hc.2 h
      rw [heq, if_neg hcond, if_pos hacc]
    · intro hown hacc hlt
      have hcond : ¬(r.user_id ≠ u ∧ o.user_id ≠ u) := by
        rcases hown with h | h
        · exact fun hc => hc.1 h
        · exact fun hc => hc.2 h
      rw [heq, if_neg hcond, if_neg hacc, if_pos hlt]
    · intro hown hacc hle
      have hcond : ¬(r.user_id ≠ u ∧ o.user_id ≠ u) := by
        rcases hown with h | h
        · exact fun hc => hc.1 h
        · exact fun hc => hc.2 h
      rw [heq, if_neg hcond, if_neg hacc, if_neg (not_lt.2 hle)]

/-- Witness for C1: on a concrete pending match whose request owner acts,
all checks pass and the confirmed state is exactly as described (one of
three seats filled, offer still active). -/
theorem C1_witness :
    confirm_match (some matchW) (some reqW) (some offW) "u1" = .ok
      ({ matchW with status := "accepted" },
       { reqW with is_matched := true, matched_with := some offW.id,
                   is_active := false },
       { offW with seats_filled := offW.seats_filled + reqW.passengers,
                   is_active :=
                     if offW.seats_filled + reqW.passengers ≥ offW.available_seats
                     then false else offW.is_active }) :=
  (((C1_confirm_match_checks_and_effects (some matchW) (some reqW) (some offW)
      "u1").2.2 matchW reqW offW rfl rfl rfl).2.2.2)
    (Or.inl rfl) (by decide) (by decide)

/-- C5 (counterexample): the claimed biconditional `is_complete ↔
missingFields = ∅` fails on the extraction-failure return path: with a
session whose stored details already contain every required ride-request
field, an oracle failure returns an empty missing-fields list together
with `is_complete = false`. -/
theorem C5_counterexample :
    (extract_information none none "ride_request" detailsFull).1.missing_fields = [] ∧
    (extract_information none none "ride_request" detailsFull).1.is_complete = false :=
  ⟨rfl, rfl⟩

/-- C5 (amended): after a successful extraction-and-merge the returned
`is_complete` flag is true iff the missing-fields list (computed from the
required-field set for the intent over the merged, post-default details) is
empty; on the extraction-failure path `is_complete` is unconditionally
false and the missing-fields list is computed from the unmerged stored
details, so the biconditional can fail there. -/
theorem C5_is_complete_iff_missing_empty (extractOracle : Option PyDict)
    (clarifyOracle : Option String) (intent : String) (existing : PyDict) :
    (∀ d, extractOracle = some d →
      ((extract_information extractOracle clarifyOracle intent existing).1.is_complete
          = true ↔
        (extract_information extractOracle clarifyOracle intent existing).1.missing_fields
          = [])) ∧
    (extractOracle = none →
      (extract_information extractOracle clarifyOracle intent existing).1.is_complete
          = false ∧
      (extract_information extractOracle clarifyOracle intent existing).1.missing_fields
          = missingFields intent existing) := by
  constructor
  · intro d hd
    subst hd
    simp only [extract_information]
    exact List.isEmpty_iff
  · intro h
    subst h
    exact ⟨rfl, rfl⟩

/-- Witness for C5: a concrete successful extraction where the
biconditional holds with both sides true. -/
theorem C5_witness :
    (extract_information (some detailsFull) none "ride_request" []).1.is_complete
        = true ↔
    (extract_information (some detailsFull) none "ride_request" []).1.missing_fields
        = [] :=
  (C5_is_complete_iff_missing_empty (some detailsFull) none "ride_request" []).1
    detailsFull rfl

/-- C6 (counterexample): merging an extracted partial whose only field is
an explicit null (`{"date": null}` — a partial with no non-null fields)
does not leave the stored ride details unchanged: the stored non-null date
is overwritten by null. -/
theorem C6_counterexample :
    (extract_information (some detailsNullDate) none "ride_offer" detailsEx).2
        = [("pickup_location", some (JVal.str "DHA")), ("date", none)] ∧
    (extract_information (some detailsNullDate) none "ride_offer" detailsEx).2
        ≠ detailsEx :=
  ⟨rfl, by decide⟩

/-- C6 (amended): the merge is last-write-wins per key over the keys
present in the incoming partial, including keys carrying an explicit null:
a stored value survives exactly when the key is absent from the partial,
and any present key overwrites (so `route` is replaced, never
concatenated, and a null can erase a stored non-null value); merging a
partial with no keys at all is the identity. -/
theorem C6_merge_last_write_wins (a b : PyDict) (k : String)
    (hnd : (b.map Prod.fst).Nodup) :
    dictMerge a [] = a ∧
    (dictLookup b k = none → dictLookup (dictMerge a b) k = dictLookup a k) ∧
    (∀ v, dictLookup b k = some v → dictLookup (dictMerge a b) k = some v) := by
  refine ⟨rfl, ?_, ?_⟩
  · intro h
    rw [dictLookup_dictMerge a b k hnd, h]
  · intro v h
    rw [dictLookup_dictMerge a b k hnd, h]

/-- Witness for C6: on concrete dicts, a key bound to null in the partial
overwrites the stored non-null value. -/
theorem C6_witness :
    dictLookup (dictMerge detailsEx detailsNullDate) "date" = some none :=
  (C6_merge_last_write_wins detailsEx detailsNullDate "date" (by decide)).2.2
    none rfl

/-- C7 (counterexample): rejecting an already-accepted match does not
return an AlreadyConfirmed-equivalent failure: on a concrete accepted
match, `reject_match` succeeds and sets the status to rejected. -/
theorem C7_counterexample :
    reject_match (some { matchW with status := "accepted" }) (some reqW)
      (some offW) "u1" = .ok { matchW with status := "rejected" } := rfl

/-- C7 (amended): confirming an already-accepted match fails with
`Match already confirmed` and mutates nothing; rejecting an
already-accepted match does not fail — it returns success with the match
status set to rejected, and (by the shape of `reject_match`, which only
produces an updated match row) touches neither seat counts nor the offer's
active flag nor the request's matched state. -/
theorem C7_confirm_and_reject_accepted (m : MatchRow) (r : RideRequest)
    (o : RideOffer) (u : String) (hown : r.user_id = u ∨ o.user_id = u)
    (hacc : m.status = "accepted") :
    confirm_match (some m) (some r) (some o) u = .error "Match already confirmed" ∧
    reject_match (some m) (some r) (some o) u = .ok { m with status := "rejected" } := by
  have hcond : ¬(r.user_id ≠ u ∧ o.user_id ≠ u) := by
    rcases hown with h | h
    · exact fun hc => hc.1 h
    · exact fun hc => hc.2 h
  constructor
  · have heq : confirm_match (some m) (some r) (some o) u =
        if r.user_id ≠ u ∧ o.user_id ≠ u then
          Except.error "Unauthorized - this match doesn\x27t belong to you"
        else if m.status = "accepted" then Except.error "Match already confirmed"
        else if o.available_seats - o.seats_filled < r.passengers then
          Except.error "Not enough seats available"
        else Except.ok
          ({ m with status := "accepted" },
           { r with is_matched := true, matched_with := some o.id, is_active := false },
           { o with seats_filled := o.seats_filled + r.passengers,
                    is_active :=
                      if o.seats_filled + r.passengers ≥ o.available_seats then false
                      else o.is_active }) := rfl
    rw [heq, if_neg hcond, if_pos hacc]
  · have heq : reject_match (some m) (some r) (some o) u =
        if r.user_id ≠ u ∧ o.user_id ≠ u then Except.error "Unauthorized"
        else Except.ok { m with status := "rejected" } := rfl
    rw [heq, if_neg hcond]

/-- Witness for C7: the amended behaviour at a concrete accepted match
owned by the acting user. -/
theorem C7_witness :
    confirm_match (some { matchW with status := "accepted" }) (some reqW)
      (some offW) "u1" = .error "Match already confirmed" ∧
    reject_match (some { matchW with status := "accepted" }) (some reqW)
      (some offW) "u1" = .ok { { matchW with status := "accepted" } with
        status := "rejected" } :=
  C7_confirm_and_reject_accepted { matchW with status := "accepted" } reqW offW
    "u1" (Or.inl rfl) rfl

/-- C9: the per-session message cap is never enforced by the code: every
append grows the message list by one unconditionally, and after
`max_messages_per_session + 1` appends a fresh session holds
`max_messages_per_session + 1` messages, exceeding the configured cap
(the source stores `max_messages_per_session` but never reads it). -/
theorem C9_cap_never_enforced :
    (∀ (s : ConversationSession) (role content : String),
      (add_message s role content).messages.length = s.messages.length + 1) ∧
    (addMessages (newSession "u") (max_messages_per_session + 1)).messages.length
      = max_messages_per_session + 1 :=
  ⟨fun s role content => by simp [add_message], by decide⟩

/-- C3: `find_matches` never returns an entry whose offer has a different
date string (raw string equality) or fewer remaining seats than the
request's passenger count, and the two pre-filters are applied before
alignment is evaluated: the result on any offer list equals the result on
the pre-filtered list. -/
theorem C3_prefilters (request : RideRequest) (offers : List RideOffer) :
    (∀ e ∈ find_matches request offers,
      request.date = e.offer.date ∧
      request.passengers ≤ e.offer.available_seats - e.offer.seats_filled) ∧
    find_matches request offers =
      find_matches request (offers.filter (prefilterOk request)) := by
  constructor
  · intro e he
    have he' : e ∈ collectMatches request offers := (sortDesc_perm _).mem_iff.1 he
    have h := mem_collectMatches he'
    exact ⟨h.1, h.2.1⟩
  · rw [find_matches, find_matches, collectMatches_filter]

/-- Witness for C3: the pre-filter equation on a concrete candidate list
containing a wrong-date offer and a full offer. -/
theorem C3_witness :
    find_matches reqW [offWrongDate, offW, offFull] =
      find_matches reqW ([offWrongDate, offW, offFull].filter (prefilterOk reqW)) :=
  (C3_prefilters reqW [offWrongDate, offW, offFull]).2

/-- C4: every returned match's overall score is `0.7 × locationScore +
0.3 × timeScore` rounded to three decimals, the returned list is sorted in
descending overall score, and equal-score entries keep encounter order:
filtering the result at any fixed score yields exactly the encounter-order
entries of that score. -/
theorem C4_score_weights_and_stable_sort (request : RideRequest)
    (offers : List RideOffer) :
    (∀ e ∈ find_matches request offers,
      e.overall_score = round3 (7/10 * e.location_score + 3/10 * e.time_score)) ∧
    (find_matches request offers).Pairwise
      (fun a b => b.overall_score ≤ a.overall_score) ∧
    (∀ s : ℚ,
      (find_matches request offers).filter (fun e => decide (e.overall_score = s)) =
        (collectMatches request offers).filter
          (fun e => decide (e.overall_score = s))) := by
  refine ⟨?_, sortDesc_pairwise _, fun s => filter_sortDesc s _⟩
  intro e he
  have he' : e ∈ collectMatches request offers := (sortDesc_perm _).mem_iff.1 he
  exact (mem_collectMatches he').2.2.2.2

/-- Witness for C4: descending sortedness of a concrete result. -/
theorem C4_witness :
    (find_matches reqW [offW]).Pairwise
      (fun a b => b.overall_score ≤ a.overall_score) :=
  (C4_score_weights_and_stable_sort reqW [offW]).2.1

lemma check_route_alignment_true {request : RideRequest} {offer : RideOffer}
    {t : String} {s : ℚ}
    (h : check_route_alignment request offer = (true, t, s)) :
    (t = "exact" ∨ t = "exact_route" ∨ t = "partial_route") ∧ 7/10 ≤ s := by
  simp only [check_route_alignment] at h
  cases hroute : offer.route with
  | none =>
    rw [hroute] at h
    split_ifs at h with hex
    · obtain ⟨ht, hs⟩ := Prod.mk.injEq .. ▸ (Prod.mk.injEq .. ▸ h).2
      exact ⟨Or.inl ht.symm, by rw [← hs]; norm_num⟩
    · exact absurd (Prod.mk.injEq .. ▸ h).1 (by decide)
  | some rt =>
    rw [hroute] at h
    dsimp only at h
    by_cases hlen : rt.length < 2
    · rw [if_pos hlen] at h
      split_ifs at h with hex
      · obtain ⟨ht, hs⟩ := Prod.mk.injEq .. ▸ (Prod.mk.injEq .. ▸ h).2
        exact ⟨Or.inl ht.symm, by rw [← hs]; norm_num⟩
      · exact absurd (Prod.mk.injEq .. ▸ h).1 (by decide)
    · rw [if_neg hlen] at h
      cases hp : findStop (stopMatches (normalize_location request.pickup_location))
          (rt.map normalize_location) with
      | none => rw [hp] at h; exact absurd (Prod.mk.injEq .. ▸ h).1 (by decide)
      | some p =>
        cases hd : findStop (stopMatches (normalize_location request.drop_location))
            (rt.map normalize_location) with
        | none => rw [hp, hd] at h; exact absurd (Prod.mk.injEq .. ▸ h).1 (by decide)
        | some d =>
          rw [hp, hd] at h
          dsimp only at h
          by_cases hpd : p < d
          · rw [if_pos hpd] at h
            split_ifs at h with hends
            · obtain ⟨ht, hs⟩ := Prod.mk.injEq .. ▸ (Prod.mk.injEq .. ▸ h).2
              exact ⟨Or.inr (Or.inl ht.symm), by rw [← hs]; norm_num⟩
            · obtain ⟨ht, hs⟩ := Prod.mk.injEq .. ▸ (Prod.mk.injEq .. ▸ h).2
              refine ⟨Or.inr (Or.inr ht.symm), ?_⟩
              rw [← hs]
              have h2 : (2 : ℚ) ≤ ((rt.map normalize_location).length : ℚ) := by
                rw [List.length_map]
                exact_mod_cast not_lt.1 hlen
              have hnum : (0 : ℚ) ≤ (d : ℚ) - (p : ℚ) := by
                have : (p : ℚ) ≤ (d : ℚ) := by exact_mod_cast le_of_lt hpd
                linarith
              have hcov : (0 : ℚ) ≤
                  ((d : ℚ) - (p : ℚ)) / (((rt.map normalize_location).length : ℚ) - 1) :=
                div_nonneg hnum (by linarith)
              linarith
          · rw [if_neg hpd] at h
            exact absurd (Prod.mk.injEq .. ▸ h).1 (by decide)

/-- C10: every entry of a `find_matches` result has match type `exact`,
`exact_route` or `partial_route` and a location score of at least `0.7`;
the `no_match` and `error` outcomes of the alignment check never appear. -/
theorem C10_only_aligned_matches (request : RideRequest)
    (offers : List RideOffer) :
    ∀ e ∈ find_matches request offers,
      (e.match_type = "exact" ∨ e.match_type = "exact_route" ∨
        e.match_type = "partial_route") ∧
      7/10 ≤ e.location_score ∧
      e.match_type ≠ "no_match" ∧ e.match_type ≠ "error" := by
  intro e he
  have he' : e ∈ collectMatches request offers := (sortDesc_perm _).mem_iff.1 he
  have hm := mem_collectMatches he'
  have ha := check_route_alignment_true hm.2.2.1
  refine ⟨ha.1, ha.2, ?_, ?_⟩
  · rcases ha.1 with h | h | h <;> simp [h]
  · rcases ha.1 with h | h | h <;> simp [h]

/-- Witness for C10: the concrete partial-route match has location score
at least `0.7`. -/
theorem C10_witness :
    7/10 ≤ ((find_matches reqW [offW]).head (by decide)).location_score :=
  (C10_only_aligned_matches reqW [offW] _ (List.head_mem _)).2.1

/-- C2: route alignment falls back to exact normalized-string matching when
the offer has no route or fewer than two stops; otherwise, with pickup and
drop indices the first route positions whose normalized stop contains or is
contained in the request's normalized pickup/drop, a match requires both to
exist with pickup index strictly before drop index, yielding
`("exact_route", 1)` when they are the route endpoints and otherwise
`("partial_route", 0.7 + 0.3 × (dropIdx − pickupIdx)/(routeLen − 1))`; on
the specification's concrete five-stop scenario the result is
`("partial_route", 0.85)`. -/
theorem C2_route_alignment_cases (request : RideRequest) (offer : RideOffer) :
    ((offer.route = none ∨ (∃ rt, offer.route = some rt ∧ rt.length < 2)) →
      ((normalize_location request.pickup_location =
            normalize_location offer.pickup_location ∧
        normalize_location request.drop_location =
            normalize_location offer.drop_location) →
          check_route_alignment request offer = (true, "exact", 1)) ∧
      (¬(normalize_location request.pickup_location =
            normalize_location offer.pickup_location ∧
         normalize_location request.drop_location =
            normalize_location offer.drop_location) →
          check_route_alignment request offer = (false, "no_match", 0))) ∧
    (∀ rt, offer.route = some rt → 2 ≤ rt.length →
      (∀ p d,
        (rt.map normalize_location).findIdx?
            (stopMatches (normalize_location request.pickup_location)) = some p →
        (rt.map normalize_location).findIdx?
            (stopMatches (normalize_location request.drop_location)) = some d →
        (p < d →
          (p = 0 ∧ d = rt.length - 1 →
            check_route_alignment request offer = (true, "exact_route", 1)) ∧
          (¬(p = 0 ∧ d = rt.length - 1) →
            check_route_alignment request offer =
              (true, "partial_route",
                7/10 + 3/10 * (((d : ℚ) - (p : ℚ)) / ((rt.length : ℚ) - 1))))) ∧
        (¬ p < d →
          check_route_alignment request offer = (false, "no_match", 0))) ∧
      (((rt.map normalize_location).findIdx?
            (stopMatches (normalize_location request.pickup_location)) = none ∨
        (rt.map normalize_location).findIdx?
            (stopMatches (normalize_location request.drop_location)) = none) →
        check_route_alignment request offer = (false, "no_match", 0))) ∧
    check_route_alignment reqW offW = (true, "partial_route", 85/100) := by
  refine ⟨?_, ?_, ?_⟩
  · intro hfb
    have hred : check_route_alignment request offer =
        (if check_exact_match request offer then ((true : Bool), "exact", (1 : ℚ))
         else (false, "no_match", 0)) := by
      rcases hfb with h | ⟨rt, h, hlen⟩
      · simp only [check_route_alignment, h]
      · simp only [check_route_alignment, h]
        rw [if_pos hlen]
    constructor
    · intro hex
      have hb : check_exact_match request offer = true := by
        simp only [check_exact_match, Bool.and_eq_true, decide_eq_true_eq]
        exact hex
      rw [hred, if_pos hb]
    · intro hex
      have hb : ¬(check_exact_match request offer = true) := by
        simp only [check_exact_match, Bool.and_eq_true, decide_eq_true_eq]
        exact hex
      rw [hred, if_neg hb]
  · intro rt hroute hlen2
    have hlen : ¬ rt.length < 2 := not_lt.2 hlen2
    constructor
    · intro p d hp hd
      rw [← findStop_eq_findIdx?] at hp hd
      constructor
      · intro hpd
        constructor
        · intro hends
          simp only [check_route_alignment, hroute]
          rw [if_neg hlen, hp, hd]
          dsimp only
          rw [if_pos hpd, List.length_map, if_pos hends]
        · intro hends
          simp only [check_route_alignment, hroute]
          rw [if_neg hlen, hp, hd]
          dsimp only
          rw [if_pos hpd, List.length_map, if_neg hends]
      · intro hpd
        simp only [check_route_alignment, hroute]
        rw [if_neg hlen, hp, hd]
        dsimp only
        rw [if_neg hpd]
    · intro hcase
      rcases hcase with hnone | hnone <;> rw [← findStop_eq_findIdx?] at hnone
      · simp only [check_route_alignment, hroute]
        rw [if_neg hlen, hnone]
      · cases hpcase : findStop
            (stopMatches (normalize_location request.pickup_location))
            (rt.map normalize_location) with
        | none =>
          simp only [check_route_alignment, hroute]
          rw [if_neg hlen, hpcase]
        | some p =>
          simp only [check_route_alignment, hroute]
          rw [if_neg hlen, hpcase, hnone]
  · have hsc : check_route_alignment reqW offW = (true, "partial_route",
        7/10 + 3/10 * ((((3 : ℕ) : ℚ) - ((1 : ℕ) : ℚ)) / (((5 : ℕ) : ℚ) - 1))) := rfl
    rw [hsc]
    norm_num [Prod.mk.injEq]

/-- Witness for C2: the concrete partial-route scenario yields type
`partial_route` with score `0.85`. -/
theorem C2_witness :
    check_route_alignment reqW offW = (true, "partial_route", 85/100) :=
  (C2_route_alignment_cases reqW offW).2.2

lemma requiredFields_sublist (intent : String) :
    (requiredFields intent).Sublist priorityOrder := by
  unfold requiredFields
  split_ifs <;> decide

lemma find?_headI_of_sublist (l p : List String) (h : l.Sublist p)
    (hnd : p.Nodup) (hne : l ≠ []) :
    p.find? (fun g => decide (g ∈ l)) = some l.headI := by
  induction h with
  | slnil => exact absurd rfl hne
  | cons a h2 ih =>
    rename_i l1 l2
    rw [List.nodup_cons] at hnd
    have hd : decide (a ∈ l1) = false :=
      decide_eq_false (fun hm => hnd.1 (h2.subset hm))
    rw [List.find?_cons, hd]
    exact ih hnd.2 hne
  | cons₂ a h2 ih =>
    rename_i l1 l2
    have hd : decide (a ∈ a :: l1) = true :=
      decide_eq_true (List.mem_cons_self a _)
    rw [List.find?_cons, hd]
    rfl

lemma field_questions_total :
    ∀ f ∈ priorityOrder, (field_questions.lookup f).isSome = true := by
  decide

/-- C8 (counterexample): the clarifying question is not always the prompt
bound to the first missing field: when the LLM call succeeds, its free text
is returned verbatim, which differs from the bound prompt. -/
theorem C8_counterexample :
    generate_clarifying_question (some "Provide the ride city please.")
        ["pickup_location"] = "Provide the ride city please." ∧
    generate_clarifying_question (some "Provide the ride city please.")
        ["pickup_location"] ≠ fallbackClarifyingQuestion ["pickup_location"] :=
  ⟨rfl, by decide⟩

/-- C8 (amended): on the deterministic fallback path (LLM failure), the
question returned for any intent and any session details with a non-empty
missing-fields list is exactly the prompt bound to the first missing field
in the priority order pickup → drop → date → time → passengers →
availableSeats: the first priority-ordered field that is missing is the
head of the missing list, and the fallback returns its bound prompt. The
selection depends only on the missing-fields list, not on extraction
confidence; the primary LLM path instead returns the oracle's free text. -/
theorem C8_fallback_first_priority_field (intent : String) (d : PyDict)
    (h : missingFields intent d ≠ []) :
    priorityOrder.find? (fun g => decide (g ∈ missingFields intent d)) =
      some (missingFields intent d).headI ∧
    field_questions.lookup (missingFields intent d).headI =
      some (fallbackClarifyingQuestion (missingFields intent d)) := by
  have hsub : (missingFields intent d).Sublist priorityOrder :=
    (List.filter_sublist _).trans (requiredFields_sublist intent)
  have hnd : priorityOrder.Nodup := by decide
  refine ⟨find?_headI_of_sublist _ _ hsub hnd h, ?_⟩
  obtain ⟨a, t, hat⟩ := List.exists_cons_of_ne_nil h
  have hmem : a ∈ priorityOrder := hsub.subset (hat ▸ List.mem_cons_self a t)
  obtain ⟨q, hq⟩ := Option.isSome_iff_exists.1 (field_questions_total a hmem)
  rw [hat]
  have hfb : fallbackClarifyingQuestion (a :: t) = q := by
    rw [fallbackClarifyingQuestion, List.findSome?_cons, hq]
  rw [hfb]
  exact hq

/-- Witness for C8: on an empty details dict for a ride request, the first
priority field `pickup_location` heads the missing list and its prompt is
the fallback question. -/
theorem C8_witness :
    priorityOrder.find?
        (fun g => decide (g ∈ missingFields "ride_request" [])) =
      some (missingFields "ride_request" []).headI ∧
    field_questions.lookup (missingFields "ride_request" []).headI =
      some (fallbackClarifyingQuestion (missingFields "ride_request" [])) :=
  C8_fallback_first_priority_field "ride_request" [] (by decide)

end Chat2Carpool
